import Mathlib

/-!
Shallow embedding of the BRD generator's section parser
(`src/services/ai_service.py`, `_parse_response` / `_is_section_header`) and
validation engine (`src/services/validation_service.py`), over exact string
data.  Python `dict`s (insertion-ordered, unique keys) are modelled as
association lists built only through `dictInsert`; Python floats are modelled
as exact rationals.
-/

namespace BRD

/-- Whitespace test; on the ASCII data handled here it agrees with the
default character set of Python's `str.strip` / `str.split()`. -/
def isWs (c : Char) : Bool := c.isWhitespace

/-- Python `str.strip()` on a character list. -/
def pyStripL (l : List Char) : List Char :=
  ((l.dropWhile isWs).reverse.dropWhile isWs).reverse

/-- Python `str.strip()`. -/
def pyStrip (s : String) : String := String.mk (pyStripL s.data)

/-- Python `str.lower()` (ASCII-faithful). -/
def lower (s : String) : String := String.mk (s.data.map Char.toLower)

/-- Contiguous-substring test: `containsSub n h = true` iff `n` occurs
contiguously in `h`; models Python's `n in h` for strings. -/
def containsSub : List Char → List Char → Bool
  | n, [] => n.isEmpty
  | n, c :: t => n.isPrefixOf (c :: t) || containsSub n t

/-- Python `needle in hay` for strings. -/
def pyIn (needle hay : String) : Bool := containsSub needle.data hay.data

/-- Split a character list at every character satisfying `p`, keeping empty
segments; models Python `str.split(sep)` with a one-character separator. -/
def splitPred (p : Char → Bool) : List Char → List (List Char)
  | [] => [[]]
  | c :: t =>
    match splitPred p t with
    | [] => [[]]
    | h :: r => if p c then [] :: h :: r else (c :: h) :: r

/-- Python `s.split('\n')`. -/
def pyLines (s : String) : List String :=
  (splitPred (fun c => c = '\n') s.data).map String.mk

/-- Python `s.split()` (split on whitespace runs, dropping empty pieces). -/
def pySplitWs (s : String) : List String :=
  ((splitPred isWs s.data).map String.mk).filter (fun t => t ≠ "")

/-- Python `len(s.split())`: naive whitespace word count. -/
def wordCount (s : String) : Nat := (pySplitWs s).length

/-- Join character lists with a separator; models Python `sep.join(xs)`. -/
def joinWith (sep : List Char) : List (List Char) → List Char
  | [] => []
  | [x] => x
  | x :: y :: r => x ++ sep ++ joinWith sep (y :: r)

/-- Python `'\n'.join(xs)`. -/
def joinNL (xs : List String) : String :=
  String.mk (joinWith ['\n'] (xs.map String.data))

/-- Python `' '.join(xs)`. -/
def joinSpace (xs : List String) : String :=
  String.mk (joinWith [' '] (xs.map String.data))

/-- A Python `dict[str, str]`: insertion-ordered association list with unique
keys (uniqueness holds for every dict built from `[]` via `dictInsert`). -/
abbrev SDict := List (String × String)

/-- Key membership, Python `k in d`. -/
def dictContains : SDict → String → Bool
  | [], _ => false
  | p :: d, k => decide (p.1 = k) || dictContains d k

/-- Python `d[k] = v`: replace in place if the key exists, else append. -/
def dictInsert : SDict → String → String → SDict
  | [], k, v => [(k, v)]
  | p :: d, k, v => if p.1 = k then (k, v) :: d else p :: dictInsert d k v

/-- Python `d[k]` (defaulting to `""`; every lookup in the sources is guarded
by a containment check, so the default is never observable). -/
def dictGet : SDict → String → String
  | [], _ => ""
  | p :: d, k => if p.1 = k then p.2 else dictGet d k

/-- Python `list(d.values())`. -/
def dictValues (d : SDict) : List String := d.map (fun p => p.2)

/-- Python `list(d.keys())`. -/
def dictKeys (d : SDict) : List String := d.map (fun p => p.1)

namespace Config

/-- `Config.COMPLIANCE_KEYWORDS` from `src/config/settings.py`. -/
def COMPLIANCE_KEYWORDS : List (String × List String) :=
  [("Pharma", ["FDA", "21 CFR Part 11", "HIPAA", "GxP", "clinical trial", "adverse event"]),
   ("Finance", ["Basel III", "GDPR", "credit risk", "probability of default",
                "loss given default", "collateral"])]

/-- `Config.BRD_SECTIONS` from `src/config/settings.py`. -/
def BRD_SECTIONS : List String :=
  ["Project Overview",
   "Business Objectives",
   "Functional Requirements",
   "Non-Functional Requirements",
   "Key Performance Indicators (KPIs)",
   "Compliance & Risk Assessment",
   "Stakeholder Analysis",
   "Project Scope"]

end Config

/-- The keyword list of `AIService._is_section_header`. -/
def section_keywords : List String :=
  ["Project Overview", "Business Objectives", "Functional Requirements",
   "Non-Functional Requirements", "Key Performance Indicators", "KPIs",
   "Compliance", "Risk Assessment", "Stakeholder Analysis", "Project Scope"]

/-- `AIService._is_section_header`: a line is a header iff some keyword occurs
in it case-insensitively as a substring. -/
def is_section_header (line : String) : Bool :=
  section_keywords.any (fun kw => pyIn (lower kw) (lower line))

/-- `line.replace('#', '').strip()`: the cleaned header name. -/
def cleanHeader (line : String) : String :=
  pyStrip (String.mk (line.data.filter (fun c => c ≠ '#')))

/-- The placeholder text synthesized for a required section missing from the
parsed output (`_parse_response`, reconciliation loop). -/
def placeholderFor (name : String) : String :=
  "[Content for " ++ name ++ " will be generated based on specific requirements]"

/-- The loop state of `_parse_response`: the dict built so far, the currently
open section name (`""` models Python's falsy `None` — the cleaned name of a
detected header is never empty), and the accumulated content buffer. -/
structure ParseState where
  sections : SDict
  current : String
  buf : List String
deriving Repr, DecidableEq

/-- One iteration of the line loop of `_parse_response`. -/
def parseLine (st : ParseState) (rawLine : String) : ParseState :=
  let line := pyStrip rawLine
  if is_section_header line then
    let secs :=
      if st.current ≠ "" then
        dictInsert st.sections st.current (pyStrip (joinNL st.buf))
      else st.sections
    ⟨secs, cleanHeader line, []⟩
  else if line ≠ "" ∧ st.current ≠ "" then
    ⟨st.sections, st.current, st.buf ++ [line]⟩
  else st

/-- The loop state after scanning all lines of the raw response. -/
def scanState (raw : String) : ParseState :=
  (pyLines raw).foldl parseLine ⟨[], "", []⟩

/-- The sections dict after the scan and the final flush (which fires only
when a section is open AND its buffer is nonempty: `if current_section and
current_content:`). -/
def scanDict (raw : String) : SDict :=
  let st := scanState raw
  if st.current ≠ "" ∧ st.buf ≠ [] then
    dictInsert st.sections st.current (pyStrip (joinNL st.buf))
  else st.sections

/-- One step of the reconciliation loop of `_parse_response`: synthesize a
placeholder for a required section absent from the dict. -/
def reconStep (s : SDict) (r : String) : SDict :=
  if dictContains s r then s else dictInsert s r (placeholderFor r)

/-- `AIService._parse_response` (the `domain` argument is unused in the
source): scan, final flush, then synthesize placeholders for required
sections that are absent. -/
def parse_response (required : List String) (raw : String) : SDict :=
  required.foldl reconStep (scanDict raw)

/-- The fields of `ValidationResult` (`src/services/validation_service.py`).
Scores are Python floats, modelled as exact rationals. -/
structure ValidationResult where
  is_valid : Bool
  compliance_score : ℚ
  terminology_score : ℚ
  completeness_score : ℚ
  overall_score : ℚ
  missing_keywords : List String
  missing_sections : List String
  recommendations : List String
  warnings : List String
deriving Repr, DecidableEq

/-- `ValidationResult.__init__`. -/
def ValidationResult.init : ValidationResult :=
  ⟨true, 0, 0, 0, 0, [], [], [], []⟩

/-- `ValidationResult.calculate_overall_score`: the fixed weighted
combination, and validity derived from it. -/
def ValidationResult.calculate_overall_score (r : ValidationResult) : ValidationResult :=
  let o := r.compliance_score * 0.4 + r.terminology_score * 0.3 + r.completeness_score * 0.3
  { r with overall_score := o, is_valid := decide ((0.7 : ℚ) ≤ o) }

/-- `" ".join(brd_sections.values()).lower()`. -/
def allContent (m : SDict) : String := lower (joinSpace (dictValues m))

/-- Keyword-table lookup, `domain in self.compliance_keywords` plus access. -/
def lookupKeywords (kw : List (String × List String)) (domain : String) :
    Option (List String) :=
  (kw.find? (fun p => decide (p.1 = domain))).map (fun p => p.2)

/-- The keywords of `required_keywords` found in the concatenated content
(`keyword.lower() in all_content`). -/
def foundKeywords (req : List String) (m : SDict) : List String :=
  req.filter (fun k => pyIn (lower k) (allContent m))

/-- `ValidationService._validate_compliance_keywords`, returning the score.
The hasattr-guarded write of `missing_keywords` into `self._current_result`
never fires in `validate_brd_content` (the attribute is set only later, in
`_generate_recommendations`), so the method's observable output is the score
alone. -/
def validateComplianceScore (kw : List (String × List String)) (m : SDict)
    (domain : String) : ℚ :=
  match lookupKeywords kw domain with
  | none => 0.5
  | some req =>
    if req ≠ [] then ((foundKeywords req m).length : ℚ) / (req.length : ℚ) else 0

/-- The missing-keyword list computed (and then discarded) by
`_validate_compliance_keywords`. -/
def complianceMissing (kw : List (String × List String)) (m : SDict)
    (domain : String) : List String :=
  match lookupKeywords kw domain with
  | none => []
  | some req => req.filter (fun k => !(pyIn (lower k) (allContent m)))

/-- `ValidationService._get_domain_terminology`. -/
def getDomainTerminology (domain : String) : List String :=
  if lower domain = "pharma" then
    ["clinical trial", "adverse event", "fda", "hipaa", "gxp",
     "investigational", "pharmacovigilance", "regulatory", "validation",
     "protocol", "informed consent", "data integrity", "audit trail"]
  else if lower domain = "finance" then
    ["credit risk", "basel iii", "probability of default", "loss given default",
     "collateral", "regulatory", "compliance", "risk assessment",
     "capital adequacy", "stress testing", "audit", "governance"]
  else
    ["business", "requirements", "stakeholders", "compliance"]

/-- `ValidationService._validate_domain_terminology`. -/
def validateDomainTerminology (m : SDict) (domain : String) : ℚ :=
  let terms := getDomainTerminology domain
  let found := terms.filter (fun t => pyIn (lower t) (allContent m))
  let expected := min 5 terms.length
  min ((found.length : ℚ) / (expected : ℚ)) 1

/-- The `missing_sections` list of `_validate_section_completeness`:
required sections absent from the model's keys, in required order. -/
def completenessMissing (required : List String) (m : SDict) : List String :=
  required.filter (fun r => !(dictContains m r))

/-- The `empty_sections` list of `_validate_section_completeness`: required
sections present but falsy or shorter than 50 characters after stripping. -/
def completenessThin (required : List String) (m : SDict) : List String :=
  required.filter (fun r =>
    dictContains m r &&
      (decide (dictGet m r = "") || decide ((pyStrip (dictGet m r)).length < 50)))

/-- The completeness ratio `(total - missing - empty) / total`. -/
def completenessScoreQ (required : List String) (m : SDict) : ℚ :=
  (((required.length : ℤ) - ((completenessMissing required m).length : ℤ)
      - ((completenessThin required m).length : ℤ) : ℤ) : ℚ) / (required.length : ℚ)

/-- `ValidationService._validate_section_completeness`; `none` models the
`ZeroDivisionError` raised when the required-section list is empty (the
hasattr-guarded write of `missing_sections` never fires, as for compliance). -/
def validateSectionCompleteness (required : List String) (m : SDict) : Option ℚ :=
  if required.length = 0 then none else some (completenessScoreQ required m)

/-- `ValidationService._generate_recommendations`: recommendation list and
warning list appended to `result`, in source order.  It reads
`result.missing_keywords` / `result.missing_sections`, which are still the
initial `[]` at the point of the call. -/
def generateRecommendations (r : ValidationResult) (m : SDict) (domain : String) :
    List String × List String :=
  let recs :=
    (if r.compliance_score < 0.8 then
      ["Consider adding more compliance references for " ++ domain ++ " domain"] ++
      (if r.missing_keywords ≠ [] then
        ["Include these compliance keywords: " ++
          String.intercalate ", " (r.missing_keywords.take 3)]
      else [])
    else []) ++
    (if r.terminology_score < 0.7 then
      ["Include more " ++ domain ++ "-specific terminology for better domain alignment"]
    else []) ++
    (if r.completeness_score < 0.8 then
      (if r.missing_sections ≠ [] then
        ["Add content for missing sections: " ++ String.intercalate ", " r.missing_sections]
      else []) ++
      ["Ensure each section has comprehensive content (minimum 50 words)"]
    else [])
  let warns := m.filterMap (fun p =>
    if p.2 ≠ "" ∧ wordCount p.2 < 30 then
      some ("Section '" ++ p.1 ++ "' appears to be too brief (" ++
        toString (wordCount p.2) ++ " words)")
    else none)
  (recs, warns)

/-- The body of `validate_brd_content` after the three scores are computed:
recommendations, then `calculate_overall_score`. -/
def validateCore (kw : List (String × List String)) (m : SDict) (domain : String)
    (comp : ℚ) : ValidationResult :=
  let r0 := { ValidationResult.init with
    compliance_score := validateComplianceScore kw m domain,
    terminology_score := validateDomainTerminology m domain,
    completeness_score := comp }
  let rw := generateRecommendations r0 m domain
  ValidationResult.calculate_overall_score
    { r0 with recommendations := rw.1, warnings := rw.2 }

/-- `ValidationService.validate_brd_content`.  The `except` branch catches
the `ZeroDivisionError` from completeness scoring (the only raisable error),
leaving the already-assigned scores in place, appending the error warning and
forcing `is_valid = False`; recommendations and the overall score are then
never computed. -/
def validate_brd_content (kw : List (String × List String)) (required : List String)
    (m : SDict) (domain : String) : ValidationResult :=
  match validateSectionCompleteness required m with
  | none =>
    { ValidationResult.init with
      compliance_score := validateComplianceScore kw m domain,
      terminology_score := validateDomainTerminology m domain,
      is_valid := false,
      warnings := ["Validation error: division by zero"] }
  | some comp => validateCore kw m domain comp

/-- The values of the model with truthy, non-whitespace content
(`[s for s in brd_sections.values() if s and len(s.strip()) > 0]`). -/
def contentCount (m : SDict) : Nat :=
  ((dictValues m).filter (fun s => s ≠ "" && decide (0 < (pyStrip s).length))).length

/-- The quality-metrics record of `check_document_quality`. -/
structure QualityMetrics where
  total_word_count : Nat
  section_word_counts : List (String × Nat)
  readability_score : ℚ
  structure_score : ℚ
  content_quality_issues : List String
deriving Repr, DecidableEq

/-- Average sentence length used by `check_document_quality` (splitting on
`'.'`, whitespace-token count per fragment). -/
def avgSentenceLength (content : String) : ℚ :=
  let sentences := (splitPred (fun c => c = '.') content.data).map String.mk
  ((sentences.map wordCount).sum : ℚ) / (sentences.length : ℚ)

/-- The per-section quality issues, in iteration order: for each truthy
section, "too brief" when the word count is below 20, then "very long
sentences" when the average sentence length exceeds 30. -/
def qualityIssues (m : SDict) : List String :=
  (m.map (fun p =>
    if p.2 ≠ "" then
      (if wordCount p.2 < 20 then ["Section '" ++ p.1 ++ "' is too brief"] else []) ++
      (if 0 < ((splitPred (fun c => c = '.') p.2.data).map String.mk).length ∧
          30 < avgSentenceLength p.2 then
        ["Section '" ++ p.1 ++ "' has very long sentences"]
      else [])
    else [])).flatten

/-- `ValidationService.check_document_quality`; `none` models the
`ZeroDivisionError` of the structure-score division when the required-section
list is empty (no handler exists in this method). -/
def check_document_quality (required : List String) (m : SDict) :
    Option QualityMetrics :=
  if required.length = 0 then none else
  let withContent := m.filter (fun p => p.2 ≠ "")
  let total := (withContent.map (fun p => wordCount p.2)).sum
  some {
    total_word_count := total,
    section_word_counts := withContent.map (fun p => (p.1, wordCount p.2)),
    readability_score := if 0 < total then min ((total : ℚ) / 500) 1 else 0,
    structure_score := (contentCount m : ℚ) / (required.length : ℚ),
    content_quality_issues := qualityIssues m }

/-! ### Dictionary lemmas -/

theorem dictContains_insert_self (d : SDict) (k v : String) :
    dictContains (dictInsert d k v) k = true := by
  induction d with
  | nil => simp [dictInsert, dictContains]
  | cons p d ih =>
    by_cases h : p.1 = k
    · simp [dictInsert, h, dictContains]
    · simp [dictInsert, h, dictContains, ih]

theorem dictContains_insert_of (d : SDict) (k v x : String)
    (h : dictContains d x = true) : dictContains (dictInsert d k v) x = true := by
  induction d with
  | nil => simp [dictContains] at h
  | cons p d ih =>
    by_cases hp : p.1 = k
    · subst hp
      simp [dictContains] at h
      rcases h with h | h
      · simp [dictInsert, dictContains, h]
      · simp [dictInsert, dictContains, h]
    · simp [dictContains, dictInsert, hp] at h ⊢
      rcases h with h | h
      · exact Or.inl h
      · exact Or.inr (ih h)

theorem dictGet_insert_self (d : SDict) (k v : String) :
    dictGet (dictInsert d k v) k = v := by
  induction d with
  | nil => simp [dictInsert, dictGet]
  | cons p d ih =>
    by_cases h : p.1 = k
    · simp [dictInsert, h, dictGet]
    · simp [dictInsert, h, dictGet, ih]

theorem dictContains_append (d e : SDict) (x : String) :
    dictContains (d ++ e) x = (dictContains d x || dictContains e x) := by
  induction d with
  | nil => simp [dictContains]
  | cons p d ih => simp [dictContains, ih, Bool.or_assoc]

theorem dictInsert_eq_append (d : SDict) (k v : String)
    (h : dictContains d k = false) : dictInsert d k v = d ++ [(k, v)] := by
  induction d with
  | nil => simp [dictInsert]
  | cons p d ih =>
    simp [dictContains] at h
    simp [dictInsert, h.1, ih h.2]

theorem dictKeys_insert (d : SDict) (k v : String) :
    dictKeys (dictInsert d k v) =
      if dictContains d k then dictKeys d else dictKeys d ++ [k] := by
  induction d with
  | nil => simp [dictInsert, dictContains, dictKeys]
  | cons p d ih =>
    by_cases h : p.1 = k
    · simp [dictInsert, h, dictContains, dictKeys]
    · simp only [dictInsert, dictContains, dictKeys, List.map_cons, if_neg h]
      by_cases hc : dictContains d k
      · simp [hc, h, dictKeys] at ih ⊢
        simp [ih]
      · simp [hc, h, dictKeys] at ih ⊢
        simp [ih]

theorem dictContains_iff_mem (d : SDict) (k : String) :
    dictContains d k = true ↔ k ∈ dictKeys d := by
  induction d with
  | nil => simp [dictContains, dictKeys]
  | cons p d ih =>
    simp [dictContains, dictKeys, ih]
    constructor
    · rintro (h | h)
      · exact Or.inl h.symm
      · exact Or.inr h
    · rintro (h | h)
      · exact Or.inl h.symm
      · exact Or.inr h

theorem nodupKeys_insert (d : SDict) (k v : String)
    (h : (dictKeys d).Nodup) : (dictKeys (dictInsert d k v)).Nodup := by
  rw [dictKeys_insert]
  by_cases hc : dictContains d k
  · simpa [hc] using h
  · have hk : k ∉ dictKeys d := fun hm => hc ((dictContains_iff_mem d k).mpr hm)
    simp [hc, List.nodup_append, h, hk]

/-! ### Fold invariants -/

theorem foldl_invariant {α β : Type} {P : β → Prop} (f : β → α → β) (l : List α)
    (init : β) (h0 : P init) (hstep : ∀ s a, P s → P (f s a)) :
    P (l.foldl f init) := by
  induction l generalizing init with
  | nil => exact h0
  | cons a l ih => exact ih _ (hstep _ _ h0)

theorem parseLine_nodup (st : ParseState) (line : String)
    (h : (dictKeys st.sections).Nodup) :
    (dictKeys (parseLine st line).sections).Nodup := by
  unfold parseLine
  by_cases h1 : is_section_header (pyStrip line)
  · by_cases h2 : st.current ≠ ""
    · simpa [h1, h2] using nodupKeys_insert _ _ _ h
    · simpa [h1, h2] using h
  · by_cases h2 : pyStrip line ≠ "" ∧ st.current ≠ ""
    · simpa [h1, h2] using h
    · simpa [h1, h2] using h

theorem scanState_nodup (raw : String) :
    (dictKeys (scanState raw).sections).Nodup := by
  unfold scanState
  exact foldl_invariant parseLine (pyLines raw) ⟨[], "", []⟩ (by simp [dictKeys])
    (fun s a hs => parseLine_nodup s a hs)

theorem scanDict_nodup (raw : String) : (dictKeys (scanDict raw)).Nodup := by
  unfold scanDict
  by_cases h : (scanState raw).current ≠ "" ∧ (scanState raw).buf ≠ []
  · simpa [h] using nodupKeys_insert _ _ _ (scanState_nodup raw)
  · simpa [h] using scanState_nodup raw

theorem reconStep_nodup (s : SDict) (r : String)
    (h : (dictKeys s).Nodup) : (dictKeys (reconStep s r)).Nodup := by
  unfold reconStep
  by_cases hc : dictContains s r
  · simpa [hc] using h
  · simpa [hc] using nodupKeys_insert _ _ _ h

theorem parse_response_nodup (required : List String) (raw : String) :
    (dictKeys (parse_response required raw)).Nodup := by
  unfold parse_response
  exact foldl_invariant reconStep required (scanDict raw) (scanDict_nodup raw)
    (fun s a hs => reconStep_nodup s a hs)

theorem reconStep_contains_of (s : SDict) (r x : String)
    (h : dictContains s x = true) : dictContains (reconStep s r) x = true := by
  unfold reconStep
  by_cases hc : dictContains s r
  · simpa [hc] using h
  · simpa [hc] using dictContains_insert_of _ _ _ _ h

theorem foldl_recon_mono (l : List String) (s : SDict) (x : String)
    (h : dictContains s x = true) :
    dictContains (l.foldl reconStep s) x = true := by
  induction l generalizing s with
  | nil => exact h
  | cons a l ih => exact ih _ (reconStep_contains_of s a x h)

theorem foldl_recon_mem (l : List String) (s : SDict) (r : String) (h : r ∈ l) :
    dictContains (l.foldl reconStep s) r = true := by
  induction l generalizing s with
  | nil => cases h
  | cons a l ih =>
    rcases List.mem_cons.mp h with h | h
    · subst h
      rw [List.foldl_cons]
      apply foldl_recon_mono
      unfold reconStep
      by_cases hc : dictContains s r
      · simp [hc]
      · simpa [hc] using dictContains_insert_self _ _ _
    · exact ih _ h

theorem foldl_recon_eq (l : List String) (s : SDict) (h : l.Nodup) :
    l.foldl reconStep s =
      s ++ (l.filter (fun r => !(dictContains s r))).map
        (fun r => (r, placeholderFor r)) := by
  induction l generalizing s with
  | nil => simp
  | cons a l ih =>
    rcases List.nodup_cons.mp h with ⟨ha, hl⟩
    rw [List.foldl_cons]
    by_cases hc : dictContains s a
    · rw [show reconStep s a = s from by simp [reconStep, hc], ih s hl]
      simp [List.filter_cons, hc]
    · have hc' : dictContains s a = false := by simpa using hc
      have hstep : reconStep s a = s ++ [(a, placeholderFor a)] := by
        simp [reconStep, hc', dictInsert_eq_append s a _ hc']
      rw [hstep, ih _ hl]
      have hfil : l.filter (fun r => !(dictContains (s ++ [(a, placeholderFor a)]) r)) =
          l.filter (fun r => !(dictContains s r)) := by
        apply List.filter_congr
        intro x hx
        have hxa : ¬(a = x) := fun hax => ha (hax ▸ hx)
        simp [dictContains_append, dictContains, hxa]
      rw [hfil]
      simp [List.filter_cons, hc', List.append_assoc]

/-! ### Validation-pipeline lemmas -/

theorem validate_eq_core (kw : List (String × List String)) (required : List String)
    (m : SDict) (domain : String) (h : required.length ≠ 0) :
    validate_brd_content kw required m domain =
      validateCore kw m domain (completenessScoreQ required m) := by
  unfold validate_brd_content validateSectionCompleteness
  simp [h]

theorem validate_eq_error (kw : List (String × List String)) (required : List String)
    (m : SDict) (domain : String) (h : required.length = 0) :
    validate_brd_content kw required m domain =
      { ValidationResult.init with
        compliance_score := validateComplianceScore kw m domain,
        terminology_score := validateDomainTerminology m domain,
        is_valid := false,
        warnings := ["Validation error: division by zero"] } := by
  unfold validate_brd_content validateSectionCompleteness
  simp [h]

theorem validateCore_compliance (kw : List (String × List String)) (m : SDict)
    (domain : String) (comp : ℚ) :
    (validateCore kw m domain comp).compliance_score =
      validateComplianceScore kw m domain := rfl

theorem validateCore_terminology (kw : List (String × List String)) (m : SDict)
    (domain : String) (comp : ℚ) :
    (validateCore kw m domain comp).terminology_score =
      validateDomainTerminology m domain := rfl

theorem validateCore_completeness (kw : List (String × List String)) (m : SDict)
    (domain : String) (comp : ℚ) :
    (validateCore kw m domain comp).completeness_score = comp := rfl

theorem validateCore_overall (kw : List (String × List String)) (m : SDict)
    (domain : String) (comp : ℚ) :
    (validateCore kw m domain comp).overall_score =
      validateComplianceScore kw m domain * 0.4 +
      validateDomainTerminology m domain * 0.3 + comp * 0.3 := rfl

theorem validateCore_isvalid (kw : List (String × List String)) (m : SDict)
    (domain : String) (comp : ℚ) :
    (validateCore kw m domain comp).is_valid =
      decide ((0.7 : ℚ) ≤ (validateCore kw m domain comp).overall_score) := rfl

theorem validateCore_missing_keywords (kw : List (String × List String)) (m : SDict)
    (domain : String) (comp : ℚ) :
    (validateCore kw m domain comp).missing_keywords = [] := rfl

theorem validateCore_missing_sections (kw : List (String × List String)) (m : SDict)
    (domain : String) (comp : ℚ) :
    (validateCore kw m domain comp).missing_sections = [] := rfl

theorem validateCore_recommendations (kw : List (String × List String)) (m : SDict)
    (domain : String) (comp : ℚ) :
    (validateCore kw m domain comp).recommendations =
      (generateRecommendations
        { ValidationResult.init with
          compliance_score := validateComplianceScore kw m domain,
          terminology_score := validateDomainTerminology m domain,
          completeness_score := comp } m domain).1 := rfl

theorem validateCore_warnings (kw : List (String × List String)) (m : SDict)
    (domain : String) (comp : ℚ) :
    (validateCore kw m domain comp).warnings =
      (generateRecommendations
        { ValidationResult.init with
          compliance_score := validateComplianceScore kw m domain,
          terminology_score := validateDomainTerminology m domain,
          completeness_score := comp } m domain).2 := rfl

/-! ### Score bounds -/

theorem complianceScore_bounds (kw : List (String × List String)) (m : SDict)
    (domain : String) :
    0 ≤ validateComplianceScore kw m domain ∧
      validateComplianceScore kw m domain ≤ 1 := by
  unfold validateComplianceScore
  cases hkw : lookupKeywords kw domain with
  | none => norm_num
  | some req =>
    by_cases hreq : req = []
    · simp [hreq]
    · simp only [if_pos hreq, ne_eq]
      have hlen : (0 : ℚ) < (req.length : ℚ) := by
        exact_mod_cast List.length_pos.mpr hreq
      constructor
      · positivity
      · rw [div_le_one hlen]
        have hle : (foundKeywords req m).length ≤ req.length :=
          List.length_filter_le _ req
        exact_mod_cast hle

theorem terminologyScore_bounds (m : SDict) (domain : String) :
    0 ≤ validateDomainTerminology m domain ∧
      validateDomainTerminology m domain ≤ 1 := by
  unfold validateDomainTerminology
  constructor
  · exact le_min (by positivity) zero_le_one
  · exact min_le_right _ _

theorem length_filter_add_length_filter_le {α : Type} (l : List α) (p q : α → Bool)
    (h : ∀ a, p a = true → q a = false) :
    (l.filter p).length + (l.filter q).length ≤ l.length := by
  induction l with
  | nil => simp
  | cons a l ih =>
    by_cases hp : p a = true
    · have hq := h a hp
      simp only [List.filter_cons, hp, if_pos, hq, Bool.false_eq_true, if_false,
        List.length_cons]
      omega
    · have hp' : p a = false := by simpa using hp
      by_cases hq : q a = true <;>
        simp only [List.filter_cons, hp', hq, Bool.false_eq_true, if_false, if_pos,
          List.length_cons] <;> omega

theorem completeness_counts_le (required : List String) (m : SDict) :
    (completenessMissing required m).length + (completenessThin required m).length ≤
      required.length := by
  unfold completenessMissing completenessThin
  apply length_filter_add_length_filter_le
  intro r hr
  simp only [Bool.not_eq_true'] at hr
  simp [hr]

theorem completenessScoreQ_bounds (required : List String) (m : SDict)
    (h : required.length ≠ 0) :
    0 ≤ completenessScoreQ required m ∧ completenessScoreQ required m ≤ 1 := by
  have hsum := completeness_counts_le required m
  have hpos : (0 : ℚ) < (required.length : ℚ) := by
    exact_mod_cast Nat.pos_of_ne_zero h
  unfold completenessScoreQ
  constructor
  · apply div_nonneg _ hpos.le
    push_cast
    have hs : ((completenessMissing required m).length : ℚ) +
        ((completenessThin required m).length : ℚ) ≤ (required.length : ℚ) := by
      exact_mod_cast hsum
    linarith
  · rw [div_le_one hpos]
    push_cast
    have h1 : (0 : ℚ) ≤ ((completenessMissing required m).length : ℚ) := by positivity
    have h2 : (0 : ℚ) ≤ ((completenessThin required m).length : ℚ) := by positivity
    linarith

/-! ### Claim theorems -/

/-- C3: for every validation run (any keyword table, any nonempty
required-section list — the deployed configuration always has 8 — any model
and domain), the returned `overall_score` is exactly
`0.4·compliance + 0.3·terminology + 0.3·completeness`, and `is_valid` holds
iff `overall_score ≥ 0.7`; both are derived, never set independently. -/
theorem C3_overall_derivation (kw : List (String × List String))
    (required : List String) (m : SDict) (domain : String) (h : required ≠ []) :
    (validate_brd_content kw required m domain).overall_score =
      0.4 * (validate_brd_content kw required m domain).compliance_score +
      0.3 * (validate_brd_content kw required m domain).terminology_score +
      0.3 * (validate_brd_content kw required m domain).completeness_score ∧
    ((validate_brd_content kw required m domain).is_valid = true ↔
      (0.7 : ℚ) ≤ (validate_brd_content kw required m domain).overall_score) := by
  have hlen : required.length ≠ 0 := by
    simpa [List.length_eq_zero] using h
  rw [validate_eq_core kw required m domain hlen]
  constructor
  · rw [validateCore_overall, validateCore_compliance, validateCore_terminology,
      validateCore_completeness]
    ring
  · rw [validateCore_isvalid]
    exact decide_eq_true_iff

/-- Witness for C3 at a concrete input. -/
theorem C3_overall_derivation_witness :
    (validate_brd_content [] Config.BRD_SECTIONS [] "X").overall_score =
      0.4 * (validate_brd_content [] Config.BRD_SECTIONS [] "X").compliance_score +
      0.3 * (validate_brd_content [] Config.BRD_SECTIONS [] "X").terminology_score +
      0.3 * (validate_brd_content [] Config.BRD_SECTIONS [] "X").completeness_score ∧
    ((validate_brd_content [] Config.BRD_SECTIONS [] "X").is_valid = true ↔
      (0.7 : ℚ) ≤ (validate_brd_content [] Config.BRD_SECTIONS [] "X").overall_score) :=
  C3_overall_derivation [] Config.BRD_SECTIONS [] "X" (by decide)

/-- C4: for every keyword table, required-section list (including the empty
one, whose internal `ZeroDivisionError` is caught), model and domain, all four
scores of the returned result lie in `[0, 1]`, and a configured keyword list
that is empty yields a compliance score of 0. -/
theorem C4_score_bounds (kw : List (String × List String)) (required : List String)
    (m : SDict) (domain : String) :
    (0 ≤ (validate_brd_content kw required m domain).compliance_score ∧
      (validate_brd_content kw required m domain).compliance_score ≤ 1) ∧
    (0 ≤ (validate_brd_content kw required m domain).terminology_score ∧
      (validate_brd_content kw required m domain).terminology_score ≤ 1) ∧
    (0 ≤ (validate_brd_content kw required m domain).completeness_score ∧
      (validate_brd_content kw required m domain).completeness_score ≤ 1) ∧
    (0 ≤ (validate_brd_content kw required m domain).overall_score ∧
      (validate_brd_content kw required m domain).overall_score ≤ 1) ∧
    (lookupKeywords kw domain = some [] →
      (validate_brd_content kw required m domain).compliance_score = 0) := by
  have hc := complianceScore_bounds kw m domain
  have ht := terminologyScore_bounds m domain
  by_cases h : required.length = 0
  · rw [validate_eq_error kw required m domain h]
    refine ⟨hc, ht, by norm_num [ValidationResult.init],
      by norm_num [ValidationResult.init], ?_⟩
    intro hkw
    simp [validateComplianceScore, hkw]
  · rw [validate_eq_core kw required m domain h]
    have hcomp := completenessScoreQ_bounds required m h
    rw [validateCore_compliance, validateCore_terminology, validateCore_completeness,
      validateCore_overall]
    refine ⟨hc, ht, hcomp, ⟨?_, ?_⟩, ?_⟩
    · have := hc.1; have := ht.1; have := hcomp.1
      nlinarith [hc.1, ht.1, hcomp.1]
    · nlinarith [hc.2, ht.2, hcomp.2, hc.1, ht.1, hcomp.1]
    · intro hkw
      simp [validateComplianceScore, hkw]

/-- Witness for C4 at a concrete input with an empty configured keyword
list. -/
theorem C4_score_bounds_witness :
    (0 ≤ (validate_brd_content [("X", [])] [] [] "X").compliance_score ∧
      (validate_brd_content [("X", [])] [] [] "X").compliance_score ≤ 1) ∧
    (0 ≤ (validate_brd_content [("X", [])] [] [] "X").terminology_score ∧
      (validate_brd_content [("X", [])] [] [] "X").terminology_score ≤ 1) ∧
    (0 ≤ (validate_brd_content [("X", [])] [] [] "X").completeness_score ∧
      (validate_brd_content [("X", [])] [] [] "X").completeness_score ≤ 1) ∧
    (0 ≤ (validate_brd_content [("X", [])] [] [] "X").overall_score ∧
      (validate_brd_content [("X", [])] [] [] "X").overall_score ≤ 1) ∧
    (validate_brd_content [("X", [])] [] [] "X").compliance_score = 0 := by
  have h := C4_score_bounds [("X", [])] [] [] "X"
  exact ⟨h.1, h.2.1, h.2.2.1, h.2.2.2.1, h.2.2.2.2 (by decide)⟩

/-- C8: with the deployed configuration (8 required sections, the
Pharma/Finance keyword table), validation of any model and any domain string
takes the exception-free path and returns the fully computed result; the
returned missing-keyword set is always empty, and a domain with no configured
keyword set receives the fixed neutral compliance score 0.5. -/
theorem C8_total_and_unknown_domain (m : SDict) (domain : String) :
    validate_brd_content Config.COMPLIANCE_KEYWORDS Config.BRD_SECTIONS m domain =
      validateCore Config.COMPLIANCE_KEYWORDS m domain
        (completenessScoreQ Config.BRD_SECTIONS m) ∧
    (validate_brd_content Config.COMPLIANCE_KEYWORDS Config.BRD_SECTIONS m
        domain).missing_keywords = [] ∧
    (validate_brd_content Config.COMPLIANCE_KEYWORDS Config.BRD_SECTIONS m
        domain).warnings =
      (generateRecommendations
        { ValidationResult.init with
          compliance_score :=
            validateComplianceScore Config.COMPLIANCE_KEYWORDS m domain,
          terminology_score := validateDomainTerminology m domain,
          completeness_score := completenessScoreQ Config.BRD_SECTIONS m }
        m domain).2 ∧
    (lookupKeywords Config.COMPLIANCE_KEYWORDS domain = none →
      (validate_brd_content Config.COMPLIANCE_KEYWORDS Config.BRD_SECTIONS m
        domain).compliance_score = 0.5) := by
  have h8 : Config.BRD_SECTIONS.length ≠ 0 := by decide
  have heq := validate_eq_core Config.COMPLIANCE_KEYWORDS Config.BRD_SECTIONS m domain h8
  refine ⟨heq, ?_, ?_, ?_⟩
  · rw [heq, validateCore_missing_keywords]
  · rw [heq, validateCore_warnings]
  · intro hkw
    rw [heq, validateCore_compliance]
    simp [validateComplianceScore, hkw]

/-- Witness for C8 at a concrete model and an unknown domain. -/
theorem C8_total_and_unknown_domain_witness :
    (validate_brd_content Config.COMPLIANCE_KEYWORDS Config.BRD_SECTIONS
      [("Project Overview", "text")] "Retail").missing_keywords = [] ∧
    (validate_brd_content Config.COMPLIANCE_KEYWORDS Config.BRD_SECTIONS
      [("Project Overview", "text")] "Retail").compliance_score = 0.5 := by
  have h := C8_total_and_unknown_domain [("Project Overview", "text")] "Retail"
  exact ⟨h.2.1, h.2.2.2 (by decide)⟩

/-! ### Concrete scenarios -/

/-- The keyword table of the claim's Scenario B: Pharma with exactly
`{"FDA", "HIPAA"}`. -/
def kwC1 : List (String × List String) := [("Pharma", ["FDA", "HIPAA"])]

/-- A model whose concatenated content contains "FDA" but not "HIPAA". -/
def mC1 : SDict :=
  [("Project Overview", "This project follows FDA guidance for the new platform rollout")]

theorem c1_compliance : validateComplianceScore kwC1 mC1 "Pharma" = 0.5 := by
  have h1 : lookupKeywords kwC1 "Pharma" = some ["FDA", "HIPAA"] := by decide
  have h2 : foundKeywords ["FDA", "HIPAA"] mC1 = ["FDA"] := by decide
  simp only [validateComplianceScore, h1, h2]
  norm_num
  decide

theorem c1_terminology : validateDomainTerminology mC1 "Pharma" = 1 / 5 := by
  have h3 : (getDomainTerminology "Pharma").filter
      (fun t => pyIn (lower t) (allContent mC1)) = ["fda"] := by decide
  have h4 : getDomainTerminology "Pharma" =
      ["clinical trial", "adverse event", "fda", "hipaa", "gxp",
       "investigational", "pharmacovigilance", "regulatory", "validation",
       "protocol", "informed consent", "data integrity", "audit trail"] := by decide
  simp only [validateDomainTerminology, h4] at h3 ⊢
  rw [h3]
  norm_num [min_def]

theorem c1_completeness : completenessScoreQ Config.BRD_SECTIONS mC1 = 1 / 8 := by
  have hm : (completenessMissing Config.BRD_SECTIONS mC1).length = 7 := by decide
  have ht : (completenessThin Config.BRD_SECTIONS mC1).length = 0 := by decide
  rw [completenessScoreQ, hm, ht]
  norm_num [Config.BRD_SECTIONS]

/-- C1: with keyword set `{"FDA","HIPAA"}` for Pharma and content containing
"FDA" but not "HIPAA", the code returns compliance score 0.5 as claimed, and
its compliance scorer internally computes the missing list `["HIPAA"]` — but
the returned result's `missing_keywords` is `[]` and no recommendation names
"HIPAA": the hasattr-guarded write-back runs before `_current_result` exists,
so the stored list and the keyword recommendation branch are dead. -/
theorem C1_dead_writeback_eval :
    (validate_brd_content kwC1 Config.BRD_SECTIONS mC1 "Pharma").compliance_score = 0.5 ∧
    complianceMissing kwC1 mC1 "Pharma" = ["HIPAA"] ∧
    (validate_brd_content kwC1 Config.BRD_SECTIONS mC1 "Pharma").missing_keywords = [] ∧
    (validate_brd_content kwC1 Config.BRD_SECTIONS mC1 "Pharma").recommendations =
      ["Consider adding more compliance references for Pharma domain",
       "Include more Pharma-specific terminology for better domain alignment",
       "Ensure each section has comprehensive content (minimum 50 words)"] := by
  have heq := validate_eq_core kwC1 Config.BRD_SECTIONS mC1 "Pharma" (by decide)
  refine ⟨?_, by decide, ?_, ?_⟩
  · rw [heq, validateCore_compliance]
    exact c1_compliance
  · rw [heq, validateCore_missing_keywords]
  · rw [heq, validateCore_recommendations, c1_compliance, c1_terminology, c1_completeness]
    simp only [generateRecommendations]
    norm_num
    decide

theorem completeness_empty_parse :
    completenessScoreQ Config.BRD_SECTIONS (parse_response Config.BRD_SECTIONS "") = 1 := by
  have hm : completenessMissing Config.BRD_SECTIONS
      (parse_response Config.BRD_SECTIONS "") = [] := by decide
  have ht : completenessThin Config.BRD_SECTIONS
      (parse_response Config.BRD_SECTIONS "") = [] := by decide
  rw [completenessScoreQ, hm, ht]
  norm_num [Config.BRD_SECTIONS]

/-- C2 counterexample: for empty raw text parsed against the 8 required
sections, the completeness score is 1, not 0 — the synthesized placeholders
are at least 63 characters long, so none of them is thin. -/
theorem C2_counterexample :
    (validate_brd_content Config.COMPLIANCE_KEYWORDS Config.BRD_SECTIONS
      (parse_response Config.BRD_SECTIONS "") "Pharma").completeness_score = 1 ∧
    (1 : ℚ) ≠ 0 := by
  refine ⟨?_, by norm_num⟩
  rw [validate_eq_core _ _ _ _ (by decide), validateCore_completeness]
  exact completeness_empty_parse

/-- C2 amended: every synthesized placeholder for the configured required
sections has trimmed length at least 50 and therefore counts as a complete
section; empty raw text parsed against the 8 required sections scores
completeness 1 with empty missing and thin sets. -/
theorem C2_placeholders_complete :
    Config.BRD_SECTIONS.all
      (fun r => decide (50 ≤ (pyStrip (placeholderFor r)).length)) = true ∧
    (validate_brd_content Config.COMPLIANCE_KEYWORDS Config.BRD_SECTIONS
      (parse_response Config.BRD_SECTIONS "") "Pharma").completeness_score = 1 ∧
    completenessMissing Config.BRD_SECTIONS (parse_response Config.BRD_SECTIONS "") = [] ∧
    completenessThin Config.BRD_SECTIONS (parse_response Config.BRD_SECTIONS "") = [] := by
  refine ⟨by decide, ?_, by decide, by decide⟩
  rw [validate_eq_core _ _ _ _ (by decide), validateCore_completeness]
  exact completeness_empty_parse

/-- Raw text whose trailing line is a detected header with a name outside the
required-section list and with no body lines after it. -/
def rawC5 : String := "Project Overview\nSome overview content here\nCompliance"

/-- C5 counterexample: the extra header "Compliance" is detected in the raw
text (and cleans to itself), yet it is not a key of the parsed model — a
trailing header with no body is never flushed. -/
theorem C5_counterexample :
    is_section_header "Compliance" = true ∧
    cleanHeader "Compliance" = "Compliance" ∧
    dictContains (parse_response Config.BRD_SECTIONS rawC5) "Compliance" = false := by
  decide

/-- C5 amended: the parsed model's key set always contains every required
section, and every key flushed during the scan is preserved by
reconciliation; only a trailing header with no body lines (never flushed) can
be absent. -/
theorem C5_superset_and_flush_preserved (required : List String) (raw : String) :
    (∀ r ∈ required, dictContains (parse_response required raw) r = true) ∧
    (∀ n, dictContains (scanDict raw) n = true →
      dictContains (parse_response required raw) n = true) := by
  constructor
  · intro r hr
    exact foldl_recon_mem required (scanDict raw) r hr
  · intro n hn
    exact foldl_recon_mono required (scanDict raw) n hn

/-- Raw text with a flushed extra section and a flushed required section. -/
def rawW5 : String := "Compliance\nBody content line\nProject Scope"

/-- Witness for C5 at a concrete input. -/
theorem C5_superset_and_flush_preserved_witness :
    dictContains (parse_response Config.BRD_SECTIONS rawW5) "Project Overview" = true ∧
    dictContains (parse_response Config.BRD_SECTIONS rawW5) "Compliance" = true :=
  ⟨(C5_superset_and_flush_preserved Config.BRD_SECTIONS rawW5).1
      "Project Overview" (by decide),
   (C5_superset_and_flush_preserved Config.BRD_SECTIONS rawW5).2
      "Compliance" (by decide)⟩

/-- Raw text ending in a required-section header with no body lines. -/
def rawC6 : String := "Project Overview\nGood content text\nProject Scope"

/-- C6 counterexample: the last detected header "Project Scope" is still open
at end of input with an empty buffer; it is not flushed (it is absent from
the scan dict), and in the final model it holds the synthesized placeholder,
not its accumulated (empty) content. -/
theorem C6_counterexample :
    dictContains (scanDict rawC6) "Project Scope" = false ∧
    dictGet (parse_response Config.BRD_SECTIONS rawC6) "Project Scope" =
      placeholderFor "Project Scope" ∧
    placeholderFor "Project Scope" ≠ "" := by
  decide

/-- C6 amended: at end of input the open section is flushed exactly when its
buffer is nonempty — then it maps to the buffer joined with newlines and
trimmed; with an empty buffer no flush happens. -/
theorem C6_final_flush (raw : String) (h : (scanState raw).current ≠ "") :
    ((scanState raw).buf ≠ [] →
      dictGet (scanDict raw) (scanState raw).current =
        pyStrip (joinNL (scanState raw).buf)) ∧
    ((scanState raw).buf = [] → scanDict raw = (scanState raw).sections) := by
  constructor
  · intro hb
    simp only [scanDict]
    rw [if_pos ⟨h, hb⟩]
    exact dictGet_insert_self _ _ _
  · intro hb
    simp only [scanDict]
    rw [if_neg (fun hcon => hcon.2 hb)]

/-- Raw text whose last header is followed by body lines. -/
def rawW6 : String := "Project Overview\nGreat content lines"

/-- Witness for C6 at a concrete input. -/
theorem C6_final_flush_witness :
    dictGet (scanDict rawW6) (scanState rawW6).current =
      pyStrip (joinNL (scanState rawW6).buf) :=
  (C6_final_flush rawW6 (by decide)).1 (by decide)

theorem check_quality_structure (required : List String) (m : SDict)
    (h : required.length ≠ 0) :
    (check_document_quality required m).map QualityMetrics.structure_score =
      some ((contentCount m : ℚ) / (required.length : ℚ)) := by
  simp only [check_document_quality]
  rw [if_neg h]
  rfl

/-- A model holding all 8 required sections plus one extra section, each with
nonempty content. -/
def mC7 : SDict :=
  [("Project Overview", "a"), ("Business Objectives", "b"),
   ("Functional Requirements", "c"), ("Non-Functional Requirements", "d"),
   ("Key Performance Indicators (KPIs)", "e"), ("Compliance & Risk Assessment", "f"),
   ("Stakeholder Analysis", "g"), ("Project Scope", "h"), ("Glossary", "i")]

/-- C7 counterexample: with an extra content-bearing section beyond the 8
required ones, structure coverage is 9/8, which lies outside [0, 1]. -/
theorem C7_counterexample :
    (check_document_quality Config.BRD_SECTIONS mC7).map QualityMetrics.structure_score =
      some ((9 : ℚ) / 8) ∧ ¬((9 : ℚ) / 8 ≤ 1) := by
  refine ⟨?_, by norm_num⟩
  rw [check_quality_structure Config.BRD_SECTIONS mC7 (by decide),
    (by decide : contentCount mC7 = 9)]
  norm_num [Config.BRD_SECTIONS]

/-- C7 amended: structure coverage equals (content-bearing section count) /
(required count); it is nonnegative, and bounded by 1 whenever the model has
at most required-count content-bearing sections (it can exceed 1 with extra
sections); for the all-placeholder model from empty raw text it is 1 even
though completeness scoring treats no placeholder as missing. -/
theorem C7_structure_coverage (required : List String) (m : SDict)
    (h : required ≠ []) :
    (check_document_quality required m).map QualityMetrics.structure_score =
      some ((contentCount m : ℚ) / (required.length : ℚ)) ∧
    0 ≤ (contentCount m : ℚ) / (required.length : ℚ) ∧
    (contentCount m ≤ required.length →
      (contentCount m : ℚ) / (required.length : ℚ) ≤ 1) ∧
    (check_document_quality Config.BRD_SECTIONS
        (parse_response Config.BRD_SECTIONS "")).map QualityMetrics.structure_score =
      some 1 := by
  have hlen : required.length ≠ 0 := by
    simpa [List.length_eq_zero] using h
  refine ⟨check_quality_structure required m hlen, by positivity, ?_, ?_⟩
  · intro hcc
    have hpos : (0 : ℚ) < (required.length : ℚ) := by
      exact_mod_cast Nat.pos_of_ne_zero hlen
    rw [div_le_one hpos]
    exact_mod_cast hcc
  · rw [check_quality_structure _ _ (by decide),
      (by decide : contentCount (parse_response Config.BRD_SECTIONS "") = 8)]
    norm_num [Config.BRD_SECTIONS]

/-- Witness for C7 at a concrete input. -/
theorem C7_structure_coverage_witness :
    (check_document_quality Config.BRD_SECTIONS [("Project Overview", "words")]).map
        QualityMetrics.structure_score =
      some ((contentCount [("Project Overview", "words")] : ℚ) /
        (Config.BRD_SECTIONS.length : ℚ)) ∧
    (contentCount [("Project Overview", "words")] : ℚ) /
        (Config.BRD_SECTIONS.length : ℚ) ≤ 1 := by
  have h := C7_structure_coverage Config.BRD_SECTIONS [("Project Overview", "words")]
    (by decide)
  exact ⟨h.1, h.2.2.1 (by decide)⟩

/-- Raw text with a duplicated header whose last occurrence has no body. -/
def rawC9 : String := "Project Overview\nAlpha beta\nProject Overview"

/-- C9 counterexample: when the last occurrence of a duplicated header
reaches end of input with no body lines, the earlier content survives — the
entry holds "Alpha beta", not the (empty) buffer accumulated after the last
occurrence. -/
theorem C9_counterexample :
    dictGet (parse_response Config.BRD_SECTIONS rawC9) "Project Overview" = "Alpha beta" ∧
    "Alpha beta" ≠ "" := by
  decide

/-- Raw text with a duplicated header whose last occurrence has body lines. -/
def rawC9b : String := "Project Overview\nAlpha text\nProject Overview\nBeta content"

/-- C9 amended: the model never holds duplicate keys, and a later occurrence
of a header overwrites the earlier content when it is itself flushed (body
lines follow it), while a final re-occurrence with no body leaves the earlier
content in place. -/
theorem C9_unique_keys_last_flush :
    (∀ (required : List String) (raw : String),
      (dictKeys (parse_response required raw)).Nodup) ∧
    dictGet (parse_response Config.BRD_SECTIONS rawC9b) "Project Overview" =
      "Beta content" ∧
    dictGet (parse_response Config.BRD_SECTIONS rawC9) "Project Overview" =
      "Alpha beta" := by
  refine ⟨fun required raw => parse_response_nodup required raw, by decide, by decide⟩

/-- Raw text whose trailing header is a required section that is detected but
never flushed. -/
def rawC10 : String :=
  "Functional Requirements\nSome body text here\nCompliance & Risk Assessment"

/-- C10 counterexample: "Compliance & Risk Assessment" is detected second in
the raw text, but since it is never flushed it is appended with the other
missing required sections in configuration order (position 6), not placed at
its detection position (position 2) as the claim requires. -/
theorem C10_counterexample :
    dictKeys (parse_response Config.BRD_SECTIONS rawC10) =
      ["Functional Requirements", "Project Overview", "Business Objectives",
       "Non-Functional Requirements", "Key Performance Indicators (KPIs)",
       "Compliance & Risk Assessment", "Stakeholder Analysis", "Project Scope"] ∧
    ¬(dictKeys (parse_response Config.BRD_SECTIONS rawC10) =
      ["Functional Requirements", "Compliance & Risk Assessment",
       "Project Overview", "Business Objectives", "Non-Functional Requirements",
       "Key Performance Indicators (KPIs)", "Stakeholder Analysis",
       "Project Scope"]) := by
  decide

/-- C10 amended: the parsed model is the scan's flushed dictionary (keys in
first-flush order) followed by placeholder entries for exactly the required
sections absent from the flushed keys, appended in configuration-list
order. -/
theorem C10_order (required : List String) (raw : String) (h : required.Nodup) :
    parse_response required raw =
      scanDict raw ++ (required.filter
        (fun r => !(dictContains (scanDict raw) r))).map
        (fun r => (r, placeholderFor r)) :=
  foldl_recon_eq required (scanDict raw) h

/-- Witness for C10 at a concrete input. -/
theorem C10_order_witness :
    parse_response Config.BRD_SECTIONS rawC10 =
      scanDict rawC10 ++ (Config.BRD_SECTIONS.filter
        (fun r => !(dictContains (scanDict rawC10) r))).map
        (fun r => (r, placeholderFor r)) :=
  C10_order Config.BRD_SECTIONS rawC10 (by decide)

end BRD
